import Mathlib

/-!
Shallow embedding of the chicken-coop firmware control core
(src/chicken-coop-nrf/chicken-coop/src/stepper.{c,h} and src/src/main.c),
with theorems settling the specification claims about it.

GPIO convention: `nrf_gpio_pin_set` drives a pin high (`true`),
`nrf_gpio_pin_clear` drives it low (`false`).  The motor-enable pin is
active-low on this driver board: the code enables the drive with
`nrf_gpio_pin_clear(motor_enable)` and disables it with
`nrf_gpio_pin_set(motor_enable)`, so "enable pin level = true" is the
disabled (safe) state.
-/

/-- `NRF_GPIO_PIN_MAP(port, pin) = (port << 5) | (pin & 0x1F)` (stepper.h). -/
def NRF_GPIO_PIN_MAP (port pin : Nat) : Nat := (port <<< 5) ||| (pin &&& 0x1F)

/-- stepper.h: `#define motor_step NRF_GPIO_PIN_MAP(1, 4)`. -/
def motor_step : Nat := NRF_GPIO_PIN_MAP 1 4

/-- stepper.h: `#define motor_dir NRF_GPIO_PIN_MAP(1, 7)`. -/
def motor_dir : Nat := NRF_GPIO_PIN_MAP 1 7

/-- stepper.h: `#define motor_enable NRF_GPIO_PIN_MAP(1, 10)`. -/
def motor_enable : Nat := NRF_GPIO_PIN_MAP 1 10

/-- stepper.h: `#define steps_to_endstop 100`. -/
def steps_to_endstop : Nat := 100

/-- stepper.h: `#define stepper_speed 800` (microseconds between edges). -/
def stepper_speed : Nat := 800

/-- Levels and output-configuration flags of the three motor pins.
`step`, `dir`, `enable` are the current pin levels (`true` = high);
`stepCfg`, `dirCfg`, `enableCfg` record whether `nrf_gpio_cfg_output`
has been called on the pin. -/
structure PinState where
  stepCfg : Bool
  dirCfg : Bool
  enableCfg : Bool
  step : Bool
  dir : Bool
  enable : Bool
  deriving Repr, DecidableEq

/-- Observable pin-level operations, in program order, as a trace. -/
inductive GpioEvent where
  | setPin (pin : Nat)
  | clearPin (pin : Nat)
  | sleepUs (us : Nat)
  deriving Repr, DecidableEq

/-- `nrf_gpio_cfg_output`: marks the pin as configured for output. -/
def nrf_gpio_cfg_output (pin : Nat) (s : PinState) : PinState :=
  if pin = motor_step then { s with stepCfg := true }
  else if pin = motor_dir then { s with dirCfg := true }
  else if pin = motor_enable then { s with enableCfg := true }
  else s

/-- `nrf_gpio_pin_set`: drives the pin high. -/
def nrf_gpio_pin_set (pin : Nat) (s : PinState) : PinState :=
  if pin = motor_step then { s with step := true }
  else if pin = motor_dir then { s with dir := true }
  else if pin = motor_enable then { s with enable := true }
  else s

/-- `nrf_gpio_pin_clear`: drives the pin low. -/
def nrf_gpio_pin_clear (pin : Nat) (s : PinState) : PinState :=
  if pin = motor_step then { s with step := false }
  else if pin = motor_dir then { s with dir := false }
  else if pin = motor_enable then { s with enable := false }
  else s

/-- stepper.c `stepper_init`: configure the three motor pins as outputs,
set the direction pin, and set the (active-low) enable pin, i.e. leave
the drive disabled. -/
def stepper_init (s : PinState) : PinState :=
  let s := nrf_gpio_cfg_output motor_step s
  let s := nrf_gpio_cfg_output motor_dir s
  let s := nrf_gpio_cfg_output motor_enable s
  let s := nrf_gpio_pin_set motor_dir s
  nrf_gpio_pin_set motor_enable s

/-- The step-pulse loop body of `stepper_run`, iterated: set step pin,
sleep `stepper_speed` µs, clear step pin, sleep `stepper_speed` µs.
Returns the final pin state and the emitted event trace. -/
def stepLoop : Nat → PinState → PinState × List GpioEvent
  | 0, s => (s, [])
  | n + 1, s =>
    let s1 := nrf_gpio_pin_set motor_step s
    let s2 := nrf_gpio_pin_clear motor_step s1
    let r := stepLoop n s2
    (r.1, GpioEvent.setPin motor_step :: GpioEvent.sleepUs stepper_speed ::
          GpioEvent.clearPin motor_step :: GpioEvent.sleepUs stepper_speed :: r.2)

/-- stepper.c `stepper_run(dir)`: clear the enable pin (enable the drive,
active low), set or clear the direction pin according to `dir`, run
`steps_to_endstop` pulse cycles, then set the enable pin (disable the
drive).  Returns the final pin state and the full event trace. -/
def stepper_run (dir : Bool) (s : PinState) : PinState × List GpioEvent :=
  let s1 := nrf_gpio_pin_clear motor_enable s
  let s2 := if dir then nrf_gpio_pin_set motor_dir s1 else nrf_gpio_pin_clear motor_dir s1
  let r := stepLoop steps_to_endstop s2
  let s3 := nrf_gpio_pin_set motor_enable r.1
  (s3, GpioEvent.clearPin motor_enable ::
       (if dir then GpioEvent.setPin motor_dir else GpioEvent.clearPin motor_dir) ::
       (r.2 ++ [GpioEvent.setPin motor_enable]))

/-- The pulse-train trace of `n` step cycles. -/
def stepCycleTrace : Nat → List GpioEvent
  | 0 => []
  | n + 1 => GpioEvent.setPin motor_step :: GpioEvent.sleepUs stepper_speed ::
             GpioEvent.clearPin motor_step :: GpioEvent.sleepUs stepper_speed ::
             stepCycleTrace n

/-- The full trace `stepper_run` is specified to emit: assert enable
(clear, active low), set the direction, `steps_to_endstop` step cycles,
deassert enable (set). -/
def stepperRunTrace (dir : Bool) : List GpioEvent :=
  GpioEvent.clearPin motor_enable ::
  (if dir then GpioEvent.setPin motor_dir else GpioEvent.clearPin motor_dir) ::
  (stepCycleTrace steps_to_endstop ++ [GpioEvent.setPin motor_enable])

theorem motor_step_eq : motor_step = 36 := by decide

theorem motor_dir_eq : motor_dir = 39 := by decide

theorem motor_enable_eq : motor_enable = 42 := by decide

@[simp] theorem pin_set_step (s : PinState) :
    nrf_gpio_pin_set motor_step s = { s with step := true } := by
  simp [nrf_gpio_pin_set, motor_step_eq, motor_dir_eq, motor_enable_eq]

@[simp] theorem pin_set_dir (s : PinState) :
    nrf_gpio_pin_set motor_dir s = { s with dir := true } := by
  simp [nrf_gpio_pin_set, motor_step_eq, motor_dir_eq, motor_enable_eq]

@[simp] theorem pin_set_enable (s : PinState) :
    nrf_gpio_pin_set motor_enable s = { s with enable := true } := by
  simp [nrf_gpio_pin_set, motor_step_eq, motor_dir_eq, motor_enable_eq]

@[simp] theorem pin_clear_step (s : PinState) :
    nrf_gpio_pin_clear motor_step s = { s with step := false } := by
  simp [nrf_gpio_pin_clear, motor_step_eq, motor_dir_eq, motor_enable_eq]

@[simp] theorem pin_clear_dir (s : PinState) :
    nrf_gpio_pin_clear motor_dir s = { s with dir := false } := by
  simp [nrf_gpio_pin_clear, motor_step_eq, motor_dir_eq, motor_enable_eq]

@[simp] theorem pin_clear_enable (s : PinState) :
    nrf_gpio_pin_clear motor_enable s = { s with enable := false } := by
  simp [nrf_gpio_pin_clear, motor_step_eq, motor_dir_eq, motor_enable_eq]

@[simp] theorem cfg_output_step (s : PinState) :
    nrf_gpio_cfg_output motor_step s = { s with stepCfg := true } := by
  simp [nrf_gpio_cfg_output, motor_step_eq, motor_dir_eq, motor_enable_eq]

@[simp] theorem cfg_output_dir (s : PinState) :
    nrf_gpio_cfg_output motor_dir s = { s with dirCfg := true } := by
  simp [nrf_gpio_cfg_output, motor_step_eq, motor_dir_eq, motor_enable_eq]

@[simp] theorem cfg_output_enable (s : PinState) :
    nrf_gpio_cfg_output motor_enable s = { s with enableCfg := true } := by
  simp [nrf_gpio_cfg_output, motor_step_eq, motor_dir_eq, motor_enable_eq]

theorem stepLoop_eq (n : Nat) (s : PinState) :
    stepLoop n s = (if n = 0 then s else { s with step := false }, stepCycleTrace n) := by
  induction n generalizing s with
  | zero => simp [stepLoop, stepCycleTrace]
  | succ n ih =>
    simp only [stepLoop, stepCycleTrace, ih, pin_set_step, pin_clear_step]
    rcases n with _ | n <;> simp

/-- Claim C3: for every direction argument, `stepper_run` performs, in
order: assert the motor-enable output (clear, active low), set the
direction output according to the argument, then exactly 100 iterations
each consisting of step-pulse assert, 800 µs hold, step-pulse deassert,
800 µs hold, and finally deasserts the motor-enable output (set); on
return the motor-enable output is in the disabled state (pin high) and
the step output is low, for both directions from any starting pin
state. -/
theorem stepper_run_pulse_train_and_safe_exit (dir : Bool) (s : PinState) :
    (stepper_run dir s).2 = stepperRunTrace dir ∧
    (stepper_run dir s).1.enable = true ∧
    (stepper_run dir s).1.step = false ∧
    (stepper_run dir s).1.dir = dir ∧
    steps_to_endstop = 100 ∧ stepper_speed = 800 := by
  constructor
  · cases dir <;> simp [stepper_run, stepperRunTrace, stepLoop_eq]
  · cases dir <;> simp [stepper_run, stepLoop_eq, steps_to_endstop, stepper_speed]

/-- Claim C9: after `stepper_init`, all three motor pins are configured
as outputs, the direction output is high, and the (active-low)
motor-enable output is high, i.e. the drive is disabled: initialization
never energizes the motor. -/
theorem stepper_init_outputs_configured_motor_disabled (s : PinState) :
    (stepper_init s).stepCfg = true ∧
    (stepper_init s).dirCfg = true ∧
    (stepper_init s).enableCfg = true ∧
    (stepper_init s).dir = true ∧
    (stepper_init s).enable = true := by
  simp [stepper_init]

/-!
Model of src/src/main.c.  Vendor (ZBOSS / Zephyr) constants that the
code uses are given their standard values; vendor calls whose bodies
live outside the repository are recorded in the state as events, not
interpreted.
-/

/-- ZCL standard: `ZB_ZCL_CLUSTER_ID_ON_OFF = 0x0006` (vendor header). -/
def ZB_ZCL_CLUSTER_ID_ON_OFF : Nat := 0x0006

/-- ZCL standard: `ZB_ZCL_ATTR_ON_OFF_ON_OFF_ID = 0x0000` (vendor header). -/
def ZB_ZCL_ATTR_ON_OFF_ON_OFF_ID : Nat := 0x0000

/-- ZCL standard: `ZB_ZCL_IDENTIFY_IDENTIFY_TIME_DEFAULT_VALUE = 0`:
identify inactive (vendor header). -/
def ZB_ZCL_IDENTIFY_IDENTIFY_TIME_DEFAULT_VALUE : Nat := 0

/-- ZCL standard: `ZB_ZCL_ON_OFF_IS_ON = 1` (vendor header). -/
def ZB_ZCL_ON_OFF_IS_ON : Nat := 1

/-- main.c: `#define CHICKEN_COOP_ENDPOINT 10`. -/
def CHICKEN_COOP_ENDPOINT : Nat := 10

/-- `DK_BTN4_MSK = BIT(3) = 0x8` (dk_buttons_and_leds.h, vendor header);
main.c: `#define IDENTIFY_MODE_BUTTON DK_BTN4_MSK`. -/
def IDENTIFY_MODE_BUTTON : Nat := 0x8

/-- main.c constants for the basic cluster. -/
def BULB_INIT_BASIC_APP_VERSION : Nat := 01

/-- main.c: `#define BULB_INIT_BASIC_STACK_VERSION 10`. -/
def BULB_INIT_BASIC_STACK_VERSION : Nat := 10

/-- main.c: `#define BULB_INIT_BASIC_HW_VERSION 11`. -/
def BULB_INIT_BASIC_HW_VERSION : Nat := 11

/-- `ZB_ZCL_VERSION` (vendor header; exact value immaterial to the claims). -/
def ZB_ZCL_VERSION : Nat := 3

/-- `ZB_ZCL_BASIC_POWER_SOURCE_DC_SOURCE = 0x03` (ZCL standard). -/
def ZB_ZCL_BASIC_POWER_SOURCE_DC_SOURCE : Nat := 0x03

/-- `ZB_ZCL_BASIC_ENV_UNSPECIFIED = 0x00` (ZCL standard). -/
def ZB_ZCL_BASIC_ENV_UNSPECIFIED : Nat := 0x00

/-- ZBOSS return codes used by main.c (`zb_ret_t` / callback status). -/
inductive ZbStatus where
  | RET_OK
  | RET_NOT_IMPLEMENTED
  | RET_INVALID_STATE
  | RET_ERROR
  deriving Repr, DecidableEq

/-- Calls into vendor collaborators, recorded as events. -/
inductive VendorCall where
  | bdbFindingBindingTarget (endpoint : Nat)
  | bdbFindingBindingTargetCancel
  | checkFactoryResetButton (button_state has_changed : Nat)
  deriving Repr, DecidableEq

/-- Log lines emitted on the control paths the claims mention. -/
inductive LogEvent where
  | infoEnterIdentify
  | warnCannotEnterIdentify
  | infoCancelIdentify
  | warnNotJoined
  | dbgIgnoreReleaseAfterReset
  deriving Repr, DecidableEq

/-- The `bulb_device_ctx_t` attribute storage (`dev_ctx` in main.c):
the basic-cluster metadata, the identify countdown and the on/off
attribute.  (Scenes and groups attributes are owned by the vendor scene
module and are not touched by the code the claims cover.) -/
structure DevCtx where
  zcl_version : Nat
  app_version : Nat
  stack_version : Nat
  hw_version : Nat
  mf_name : String
  model_id : String
  date_code : String
  power_source : Nat
  location_id : String
  ph_env : Nat
  identify_time : Nat
  on_off : Bool
  deriving Repr, DecidableEq

/-- The whole application state visible to the control core: the
attribute storage, the motor pins, the static `blink_status` counter of
`toggle_identify_led`, the identify LED level, the pending
`toggle_identify_led` alarm (delay in ms when armed), plus histories of
`stepper_run` invocations, vendor calls and log lines. -/
structure SysState where
  ctx : DevCtx
  pins : PinState
  blink_status : Nat
  identify_led : Bool
  identify_alarm : Option Nat
  stepperRuns : List Bool
  vendorCalls : List VendorCall
  logs : List LogEvent
  deriving Repr, DecidableEq

/-- main.c `on_off_set_value(on)`: store the value into the on/off
attribute (`ZB_ZCL_SET_ATTRIBUTE` writes it into `dev_ctx.on_off_attr`,
the storage the attribute list points at), then unconditionally run the
stepper in the direction given by the value. -/
def on_off_set_value (onv : Bool) (st : SysState) : SysState :=
  let st := { st with ctx := { st.ctx with on_off := onv } }
  if onv then
    { st with pins := (stepper_run true st.pins).1,
              stepperRuns := st.stepperRuns ++ [true] }
  else
    { st with pins := (stepper_run false st.pins).1,
              stepperRuns := st.stepperRuns ++ [false] }

/-- The `set_attr_value_param` of a `ZB_ZCL_SET_ATTR_VALUE_CB_ID`
device callback: cluster id, attribute id, and the 8-bit value. -/
structure SetAttrValueParam where
  cluster_id : Nat
  attr_id : Nat
  data8 : Nat
  deriving Repr, DecidableEq

/-- main.c `zcl_device_cb`, `ZB_ZCL_SET_ATTR_VALUE_CB_ID` branch.  The
local variables `cluster_id` and `attr_id` are declared `zb_uint8_t`
(main.c lines 355-356), so assigning the callback parameter's ids into
them truncates both to 8 bits before any comparison; this is modelled
by `% 256`.  The status starts at `RET_OK`; for the (truncated) on/off
cluster id, the (truncated) on/off attribute id is forwarded to
`on_off_set_value` (the C cast `(zb_bool_t)value` makes any nonzero
byte true) and any other attribute id falls through with the default
status; any other cluster sets `RET_NOT_IMPLEMENTED`. -/
def zcl_device_cb (p : SetAttrValueParam) (st : SysState) : ZbStatus × SysState :=
  let cluster_id := p.cluster_id % 256
  let attr_id := p.attr_id % 256
  if cluster_id = ZB_ZCL_CLUSTER_ID_ON_OFF then
    if attr_id = ZB_ZCL_ATTR_ON_OFF_ON_OFF_ID then
      (ZbStatus.RET_OK, on_off_set_value (p.data8 != 0) st)
    else
      (ZbStatus.RET_OK, st)
  else
    (ZbStatus.RET_NOT_IMPLEMENTED, st)

/-- main.c `toggle_identify_led`: increment the static `blink_status`,
drive the identify LED to `blink_status % 2`, and re-arm the alarm for
itself 100 ms later (`ZB_SCHEDULE_APP_ALARM(...,
ZB_MILLISECONDS_TO_BEACON_INTERVAL(100))`). -/
def toggle_identify_led (st : SysState) : SysState :=
  let b := st.blink_status + 1
  { st with blink_status := b,
            identify_led := b % 2 == 1,
            identify_alarm := some 100 }

/-- main.c `identify_cb(bufid)`: with a valid buffer, schedule
`toggle_identify_led` (modelled as arming it to fire immediately); with
`bufid == 0`, cancel the pending `toggle_identify_led` alarm
(`ZB_SCHEDULE_APP_ALARM_CANCEL`, its error code ignored) and force the
identify LED low.  The static `blink_status` is not touched. -/
def identify_cb (bufid : Nat) (st : SysState) : SysState :=
  if bufid != 0 then
    { st with identify_alarm := some 0 }
  else
    { st with identify_alarm := none,
              identify_led := false }

/-- main.c `button_changed(button_state, has_changed)`: on a change of
the identify button, a press does nothing; a release asks the
factory-reset collaborator `was_factory_reset_done()` (passed here as
the oracle `reset_done`) and, only when it reports false, schedules
`start_identifying`; finally always calls
`check_factory_reset_button`.  The returned `Nat` counts the
`start_identifying` callbacks scheduled by this invocation. -/
def button_changed (button_state has_changed : Nat) (reset_done : Bool)
    (st : SysState) : Nat × SysState :=
  let r :=
    if IDENTIFY_MODE_BUTTON &&& has_changed != 0 then
      if IDENTIFY_MODE_BUTTON &&& button_state != 0 then
        (0, st)
      else
        if reset_done then
          (0, { st with logs := st.logs ++ [LogEvent.dbgIgnoreReleaseAfterReset] })
        else
          (1, st)
    else
      (0, st)
  (r.1, { r.2 with vendorCalls := r.2.vendorCalls ++
          [VendorCall.checkFactoryResetButton button_state has_changed] })

/-- main.c `start_identifying(bufid)`: when joined, compare the
identify-time attribute against the default (inactive) value; if equal,
call `zb_bdb_finding_binding_target(CHICKEN_COOP_ENDPOINT)` (its result
`bdb_ret`, a vendor outcome, only selects a log line — `RET_ERROR`
would trip `ZB_ERROR_CHECK`, not modelled further); otherwise call
`zb_bdb_finding_binding_target_cancel()`.  When not joined, only log a
warning. -/
def start_identifying (joined : Bool) (bdb_ret : ZbStatus) (st : SysState) : SysState :=
  if joined then
    if st.ctx.identify_time = ZB_ZCL_IDENTIFY_IDENTIFY_TIME_DEFAULT_VALUE then
      let st := { st with vendorCalls := st.vendorCalls ++
                  [VendorCall.bdbFindingBindingTarget CHICKEN_COOP_ENDPOINT] }
      if bdb_ret = ZbStatus.RET_OK then
        { st with logs := st.logs ++ [LogEvent.infoEnterIdentify] }
      else if bdb_ret = ZbStatus.RET_INVALID_STATE then
        { st with logs := st.logs ++ [LogEvent.warnCannotEnterIdentify] }
      else
        st
    else
      { st with logs := st.logs ++ [LogEvent.infoCancelIdentify],
                vendorCalls := st.vendorCalls ++
                  [VendorCall.bdbFindingBindingTargetCancel] }
  else
    { st with logs := st.logs ++ [LogEvent.warnNotJoined] }

/-- main.c `bulb_clusters_attr_init`: fill in the basic-cluster
metadata, set the identify time to the default (inactive) value, set
the on/off attribute to `ZB_ZCL_ON_OFF_IS_ON`, and write that value
through `ZB_ZCL_SET_ATTRIBUTE` into the same storage.  No GPIO call and
no `stepper_run` call appears in the function. -/
def bulb_clusters_attr_init (st : SysState) : SysState :=
  { st with ctx :=
    { zcl_version := ZB_ZCL_VERSION
      app_version := BULB_INIT_BASIC_APP_VERSION
      stack_version := BULB_INIT_BASIC_STACK_VERSION
      hw_version := BULB_INIT_BASIC_HW_VERSION
      mf_name := "Nordic"
      model_id := "Chicken_Coop_v0.1"
      date_code := "20231121"
      power_source := ZB_ZCL_BASIC_POWER_SOURCE_DC_SOURCE
      location_id := "Outside"
      ph_env := ZB_ZCL_BASIC_ENV_UNSPECIFIED
      identify_time := ZB_ZCL_IDENTIFY_IDENTIFY_TIME_DEFAULT_VALUE
      on_off := ZB_ZCL_ON_OFF_IS_ON != 0 } }

/-- Power-on state: zeroed attribute storage, all pins low and
unconfigured, no pending alarm, empty histories. -/
def powerOnState : SysState :=
  { ctx := { zcl_version := 0, app_version := 0, stack_version := 0,
             hw_version := 0, mf_name := "", model_id := "", date_code := "",
             power_source := 0, location_id := "", ph_env := 0,
             identify_time := 0, on_off := false }
    pins := { stepCfg := false, dirCfg := false, enableCfg := false,
              step := false, dir := false, enable := false }
    blink_status := 0
    identify_led := false
    identify_alarm := none
    stepperRuns := []
    vendorCalls := []
    logs := [] }

/-- The state after `main`'s initialization sequence: the cluster
attributes are initialized (`bulb_clusters_attr_init`), then the
stepper pins (`stepper_init`). -/
def mainInitState : SysState :=
  let st := bulb_clusters_attr_init powerOnState
  { st with pins := stepper_init st.pins }

/-- Counterexample to claim C1 as stated: from the post-init state
(whose stored on/off value is already `true`), a delivered
`on_off = true` write runs the stepper, and delivering the same write
again — with the stored value already `true`, so nothing changes —
still triggers a second `stepper_run(true)` invocation, because
`on_off_set_value` calls the stepper unconditionally. -/
theorem on_off_repeat_write_reruns_stepper_cex :
    (zcl_device_cb ⟨ZB_ZCL_CLUSTER_ID_ON_OFF, ZB_ZCL_ATTR_ON_OFF_ON_OFF_ID, 1⟩
        mainInitState).2.ctx.on_off = true ∧
    (zcl_device_cb ⟨ZB_ZCL_CLUSTER_ID_ON_OFF, ZB_ZCL_ATTR_ON_OFF_ON_OFF_ID, 1⟩
        mainInitState).2.stepperRuns = [true] ∧
    (zcl_device_cb ⟨ZB_ZCL_CLUSTER_ID_ON_OFF, ZB_ZCL_ATTR_ON_OFF_ON_OFF_ID, 1⟩
        (zcl_device_cb ⟨ZB_ZCL_CLUSTER_ID_ON_OFF, ZB_ZCL_ATTR_ON_OFF_ON_OFF_ID, 1⟩
          mainInitState).2).2.stepperRuns = [true, true] := by
  decide

/-- Claim C1 (amended): every on/off attribute write delivered to
`zcl_device_cb` stores the value and invokes the actuation sequence
unconditionally — `stepper_run(true)` for a nonzero value,
`stepper_run(false)` for zero — regardless of whether the stored value
changed; there is no idempotence check. -/
theorem on_off_write_always_runs_stepper (st : SysState) (v : Nat) :
    (zcl_device_cb ⟨ZB_ZCL_CLUSTER_ID_ON_OFF, ZB_ZCL_ATTR_ON_OFF_ON_OFF_ID, v⟩ st).1 =
      ZbStatus.RET_OK ∧
    (zcl_device_cb ⟨ZB_ZCL_CLUSTER_ID_ON_OFF, ZB_ZCL_ATTR_ON_OFF_ON_OFF_ID, v⟩
        st).2.ctx.on_off = (v != 0) ∧
    (zcl_device_cb ⟨ZB_ZCL_CLUSTER_ID_ON_OFF, ZB_ZCL_ATTR_ON_OFF_ON_OFF_ID, v⟩
        st).2.stepperRuns = st.stepperRuns ++ [v != 0] := by
  cases h : (v != 0) <;>
    simp [zcl_device_cb, on_off_set_value, h,
      ZB_ZCL_CLUSTER_ID_ON_OFF, ZB_ZCL_ATTR_ON_OFF_ON_OFF_ID]

/-- Counterexample to claim C2 as stated, in both directions.  A write
to attribute 0x40 on the on/off cluster — a pair that is not (on/off
cluster, on/off attribute) even after the `zb_uint8_t` truncation —
does not return the Unhandled/not-implemented status: the callback
leaves the default `RET_OK` in place (the store is unchanged there).
And a write to attribute 0x4000 on the on/off cluster — also not the
on/off pair — does not leave the store unchanged at all: the
`zb_uint8_t` locals truncate 0x4000 to 0x00, the on/off attribute id,
so the callback takes the on/off path, stores the value and runs the
stepper. -/
theorem other_attr_on_onoff_cluster_status_cex :
    ((zcl_device_cb ⟨ZB_ZCL_CLUSTER_ID_ON_OFF, 0x40, 1⟩ mainInitState).1 ≠
       ZbStatus.RET_NOT_IMPLEMENTED ∧
     (zcl_device_cb ⟨ZB_ZCL_CLUSTER_ID_ON_OFF, 0x40, 1⟩ mainInitState).2 =
       mainInitState) ∧
    ((zcl_device_cb ⟨ZB_ZCL_CLUSTER_ID_ON_OFF, 0x4000, 1⟩
        mainInitState).2.stepperRuns = [true] ∧
     (zcl_device_cb ⟨ZB_ZCL_CLUSTER_ID_ON_OFF, 0x4000, 1⟩ mainInitState).2 ≠
       mainInitState) := by
  decide

/-- Claim C2 (amended): `zcl_device_cb` compares the ids after the
`zb_uint8_t` truncation to 8 bits.  For any request whose truncated
pair is not (on/off cluster, on/off attribute), the whole state — in
particular the attribute store — is unchanged; the returned status is
`RET_NOT_IMPLEMENTED` (Unhandled) when the truncated cluster id is
foreign, but stays the default `RET_OK` for a different truncated
attribute id on the on/off cluster.  (A pair whose truncated ids
collide with the on/off pair, such as attribute 0x4000, is instead
treated as an on/off write.) -/
theorem non_onoff_write_unhandled_or_ok (p : SetAttrValueParam) (st : SysState)
    (h : p.cluster_id % 256 ≠ ZB_ZCL_CLUSTER_ID_ON_OFF ∨
         p.attr_id % 256 ≠ ZB_ZCL_ATTR_ON_OFF_ON_OFF_ID) :
    (zcl_device_cb p st).2 = st ∧
    (zcl_device_cb p st).1 =
      (if p.cluster_id % 256 = ZB_ZCL_CLUSTER_ID_ON_OFF then ZbStatus.RET_OK
       else ZbStatus.RET_NOT_IMPLEMENTED) := by
  by_cases hc : p.cluster_id % 256 = ZB_ZCL_CLUSTER_ID_ON_OFF
  · have ha : p.attr_id % 256 ≠ ZB_ZCL_ATTR_ON_OFF_ON_OFF_ID := by
      rcases h with h | h
      · exact absurd hc h
      · exact h
    simp [zcl_device_cb, hc, ha]
  · simp [zcl_device_cb, hc]

/-- Witness for `non_onoff_write_unhandled_or_ok` at a foreign cluster
(cluster id 8, the level-control cluster) on the post-init state. -/
theorem non_onoff_write_unhandled_or_ok_witness :
    (zcl_device_cb ⟨8, 0, 1⟩ mainInitState).2 = mainInitState ∧
    (zcl_device_cb ⟨8, 0, 1⟩ mainInitState).1 = ZbStatus.RET_NOT_IMPLEMENTED := by
  have h := non_onoff_write_unhandled_or_ok ⟨8, 0, 1⟩ mainInitState
    (Or.inl (by decide))
  exact ⟨h.1, by simpa using h.2⟩

/-- Counterexample to claim C4 as stated: cancelling identify
(`identify_cb` with buffer id 0) does not reset the blink phase — the
static `blink_status` keeps its value — so a session started after a
cancel does not begin at the same phase as the very first session: the
first firing of the first session drives the LED high, while the first
firing after a cancel at phase 1 drives it low. -/
theorem identify_cancel_keeps_phase_cex :
    (identify_cb 0 (toggle_identify_led mainInitState)).blink_status ≠
      mainInitState.blink_status ∧
    (toggle_identify_led (identify_cb 0 (toggle_identify_led
        mainInitState))).identify_led ≠
      (toggle_identify_led mainInitState).identify_led := by
  decide

/-- Claim C4 (amended): the identify cancel path (`identify_cb` with a
zero buffer id) deschedules the periodic blink alarm and forces the
identify output low — idempotently, so cancelling while inactive
changes no pin value since the output is already low — but it does not
reset the blink phase: the static `blink_status` counter persists
across sessions, so a later session may start at a different phase than
the very first one. -/
theorem identify_cb_cancel_effects (st : SysState) :
    (identify_cb 0 st).identify_alarm = none ∧
    (identify_cb 0 st).identify_led = false ∧
    (identify_cb 0 st).blink_status = st.blink_status ∧
    (identify_cb 0 st).pins = st.pins ∧
    (identify_cb 0 st).ctx = st.ctx := by
  simp [identify_cb]

/-- Claim C5: `button_changed` schedules `start_identifying` exactly
once iff the identify button changed to the released state and the
factory-reset collaborator reports that no reset was completed during
the hold; a press transition, or a release after a completed reset,
schedules nothing; and every invocation forwards the raw masks to
`check_factory_reset_button`. -/
theorem button_changed_release_classifies (bs hc : Nat) (rd : Bool) (st : SysState) :
    (button_changed bs hc rd st).1 =
      (if IDENTIFY_MODE_BUTTON &&& hc ≠ 0 ∧ IDENTIFY_MODE_BUTTON &&& bs = 0 ∧
          rd = false then 1 else 0) ∧
    (button_changed bs hc rd st).2.vendorCalls =
      st.vendorCalls ++ [VendorCall.checkFactoryResetButton bs hc] := by
  cases rd <;>
    by_cases h1 : IDENTIFY_MODE_BUTTON &&& hc = 0 <;>
      by_cases h2 : IDENTIFY_MODE_BUTTON &&& bs = 0 <;>
        simp [button_changed, h1, h2]

/-- Claim C6: each firing of `toggle_identify_led` increments the blink
counter, drives the identify output to the new phase's parity, and
unconditionally re-arms its own alarm at the fixed 100 ms period (no
firing-count limit); consequently two consecutive firings drive the
output to opposite levels. -/
theorem toggle_identify_led_alternates (st : SysState) :
    (toggle_identify_led st).blink_status = st.blink_status + 1 ∧
    (toggle_identify_led st).identify_led = ((st.blink_status + 1) % 2 == 1) ∧
    (toggle_identify_led st).identify_alarm = some 100 ∧
    (toggle_identify_led (toggle_identify_led st)).identify_led =
      !(toggle_identify_led st).identify_led := by
  refine ⟨by simp [toggle_identify_led], by simp [toggle_identify_led],
    by simp [toggle_identify_led], ?_⟩
  simp only [toggle_identify_led]
  rcases Nat.mod_two_eq_zero_or_one st.blink_status with h | h
  · have h1 : (st.blink_status + 1) % 2 = 1 := by omega
    have h2 : (st.blink_status + 1 + 1) % 2 = 0 := by omega
    simp [h1, h2]
  · have h1 : (st.blink_status + 1) % 2 = 0 := by omega
    have h2 : (st.blink_status + 1 + 1) % 2 = 1 := by omega
    simp [h1, h2]

/-- Claim C7: a toggle-intent (`start_identifying`) while joined
behaves as a toggle: when the identify-time attribute equals the
default (inactive) value it attempts to enter identify mode (calls
`zb_bdb_finding_binding_target` on the device endpoint, whatever that
call returns), and when the attribute differs from the default it calls
`zb_bdb_finding_binding_target_cancel` instead. -/
theorem start_identifying_joined_toggle (bdb_ret : ZbStatus) (st : SysState) :
    (start_identifying true bdb_ret st).vendorCalls =
      st.vendorCalls ++
        [if st.ctx.identify_time = ZB_ZCL_IDENTIFY_IDENTIFY_TIME_DEFAULT_VALUE
         then VendorCall.bdbFindingBindingTarget CHICKEN_COOP_ENDPOINT
         else VendorCall.bdbFindingBindingTargetCancel] := by
  by_cases ht : st.ctx.identify_time = ZB_ZCL_IDENTIFY_IDENTIFY_TIME_DEFAULT_VALUE
  · cases bdb_ret <;> simp [start_identifying, ht]
  · simp [start_identifying, ht]

/-- Claim C8: an identify-start while not joined is skipped entirely:
no vendor identify call is made, no alarm is scheduled, the attribute
store, the pins and the stepper history are untouched, and the only
effect is the warning log line. -/
theorem start_identifying_not_joined_skips (bdb_ret : ZbStatus) (st : SysState) :
    (start_identifying false bdb_ret st).ctx = st.ctx ∧
    (start_identifying false bdb_ret st).pins = st.pins ∧
    (start_identifying false bdb_ret st).identify_alarm = st.identify_alarm ∧
    (start_identifying false bdb_ret st).identify_led = st.identify_led ∧
    (start_identifying false bdb_ret st).stepperRuns = st.stepperRuns ∧
    (start_identifying false bdb_ret st).vendorCalls = st.vendorCalls ∧
    (start_identifying false bdb_ret st).logs =
      st.logs ++ [LogEvent.warnNotJoined] := by
  simp [start_identifying]

/-- Claim C10: `bulb_clusters_attr_init` sets the on/off attribute to
ON (true) and the identify time to the inactive default, but records no
`stepper_run` invocation and leaves the motor pins exactly as they
were: startup attribute initialization never actuates the motor. -/
theorem bulb_clusters_attr_init_sets_on_no_actuation (st : SysState) :
    (bulb_clusters_attr_init st).ctx.on_off = true ∧
    (bulb_clusters_attr_init st).ctx.identify_time =
      ZB_ZCL_IDENTIFY_IDENTIFY_TIME_DEFAULT_VALUE ∧
    (bulb_clusters_attr_init st).stepperRuns = st.stepperRuns ∧
    (bulb_clusters_attr_init st).pins = st.pins ∧
    (bulb_clusters_attr_init st).vendorCalls = st.vendorCalls ∧
    (bulb_clusters_attr_init st).identify_alarm = st.identify_alarm := by
  simp [bulb_clusters_attr_init, ZB_ZCL_ON_OFF_IS_ON,
    ZB_ZCL_IDENTIFY_IDENTIFY_TIME_DEFAULT_VALUE]
